import Mathlib

/-!
Verification of the persistence layer of the stock-analysis application
(`sqlite_backend.py`).  The backing SQLite database holds one table,
`analysis_data`, with columns `id` (INTEGER PRIMARY KEY AUTOINCREMENT),
`topic`, `parameters`, `content` (all TEXT NOT NULL).  Every operation
opens its own connection inside a `try` block, catches `sqlite3.Error`,
and runs `conn.close()` in a `finally` block.

The embedding models:
  * a table row (`Row`) and the table with its AUTOINCREMENT counter (`DB`);
  * the database file, whose table may not exist yet (`DBFile`);
  * Python-level control flow of each function, including the two
    engine-failure points (the `sqlite3.connect` call and the statement
    execution) as explicit boolean scenario flags, and the exception that
    escapes a function, if any (`Exn`, `OpResult`).

A run of an operation is `op failConnect failExec file args`:
  * `failConnect = true` models `sqlite3.connect(DB_PATH)` raising
    `sqlite3.Error`.  In the Python source the local `conn` is then never
    bound, the `except sqlite3.Error` clause runs, and the `finally`
    clause evaluates `conn.close()` on the unbound local, which raises
    `UnboundLocalError`; that exception escapes and any value returned by
    the `except` clause is discarded.
  * `failExec = true` models the statement execution raising
    `sqlite3.Error` after the connection was opened; the `except` clause
    handles it and the `finally` clause closes the bound connection.
  * executing any statement against a file whose table does not exist
    raises `sqlite3.Error` (`no such table`) for every operation except
    `init_db` and `check_table_exists`, and is handled like `failExec`.
-/

/-- One row of the `analysis_data` table. -/
structure Row where
  id : Nat
  topic : String
  parameters : String
  content : String
deriving DecidableEq, Repr

/-- The `analysis_data` table: its rows in storage (rowid) order together
with the AUTOINCREMENT counter for the next `id` (SQLite starts at 1). -/
structure DB where
  rows : List Row
  nextId : Nat
deriving DecidableEq, Repr

/-- The database file: `table = none` if `analysis_data` does not exist. -/
structure DBFile where
  table : Option DB
deriving DecidableEq, Repr

/-- Exceptions that can escape an operation to its caller. -/
inductive Exn where
  | sqliteError
  | unboundLocalError
deriving DecidableEq, Repr

/-- The observable outcome of one operation: the resulting database file,
the value returned normally (if any), the exception that escaped (if any),
and whether a connection was opened resp. closed during the call. -/
structure OpResult (α : Type) where
  file : DBFile
  ret : Option α
  exn : Option Exn
  opened : Bool
  closed : Bool
deriving DecidableEq, Repr

/-- The `WHERE topic = ? AND parameters = ?` predicate shared by
`retrieve_from_sqlite`, `delete_from_sqlite` and `update_sqlite`. -/
def rowMatches (topic parameters : String) (r : Row) : Bool :=
  r.topic == topic && r.parameters == parameters

/-- `init_db()`: `CREATE TABLE IF NOT EXISTS analysis_data (...)`, commit,
print; `except sqlite3.Error` prints; `finally` runs `conn.close()`. -/
def init_db (failConnect failExec : Bool) (file : DBFile) : OpResult Unit :=
  if failConnect then
    ⟨file, none, some Exn.unboundLocalError, false, false⟩
  else if failExec then
    ⟨file, some (), none, true, true⟩
  else
    ⟨⟨some (file.table.getD ⟨[], 1⟩)⟩, some (), none, true, true⟩

/-- `check_table_exists()`: queries `sqlite_master` for the table name and
returns `True`/`False`; on `sqlite3.Error` returns `False`. -/
def check_table_exists (failConnect failExec : Bool) (file : DBFile) :
    OpResult Bool :=
  if failConnect then
    ⟨file, none, some Exn.unboundLocalError, false, false⟩
  else if failExec then
    ⟨file, some false, none, true, true⟩
  else
    ⟨file, some file.table.isSome, none, true, true⟩

/-- `save_to_sqlite(topic, parameters, content)`: `INSERT INTO
analysis_data (topic, parameters, content) VALUES (?, ?, ?)`, commit,
print; `except sqlite3.Error` prints; `finally` closes.  The new row gets
the next AUTOINCREMENT id. -/
def save_to_sqlite (failConnect failExec : Bool) (file : DBFile)
    (topic parameters content : String) : OpResult Unit :=
  if failConnect then
    ⟨file, none, some Exn.unboundLocalError, false, false⟩
  else
    match file.table with
    | none => ⟨file, some (), none, true, true⟩
    | some db =>
      if failExec then
        ⟨file, some (), none, true, true⟩
      else
        ⟨⟨some ⟨db.rows ++ [⟨db.nextId, topic, parameters, content⟩],
            db.nextId + 1⟩⟩, some (), none, true, true⟩

/-- `retrieve_from_sqlite(topic, parameters)`: `SELECT content FROM
analysis_data WHERE topic = ? AND parameters = ?`, then `fetchone()`;
returns the content of the first matching row in storage order, the
not-found message string when no row matches, and the error message string
when `sqlite3.Error` is caught. -/
def retrieve_from_sqlite (failConnect failExec : Bool) (file : DBFile)
    (topic parameters : String) : OpResult String :=
  if failConnect then
    ⟨file, none, some Exn.unboundLocalError, false, false⟩
  else
    match file.table with
    | none =>
      ⟨file, some "An error occurred while retrieving the content.",
        none, true, true⟩
    | some db =>
      if failExec then
        ⟨file, some "An error occurred while retrieving the content.",
          none, true, true⟩
      else
        match db.rows.find? (rowMatches topic parameters) with
        | some r => ⟨file, some r.content, none, true, true⟩
        | none =>
          ⟨file, some "No content found for the given topic and parameters.",
            none, true, true⟩

/-- `delete_from_sqlite(topic, parameters)`: `DELETE FROM analysis_data
WHERE topic = ? AND parameters = ?`, commit; `cursor.rowcount` is the
number of deleted rows and selects the returned message. -/
def delete_from_sqlite (failConnect failExec : Bool) (file : DBFile)
    (topic parameters : String) : OpResult String :=
  if failConnect then
    ⟨file, none, some Exn.unboundLocalError, false, false⟩
  else
    match file.table with
    | none =>
      ⟨file, some "An error occurred while deleting the content.",
        none, true, true⟩
    | some db =>
      if failExec then
        ⟨file, some "An error occurred while deleting the content.",
          none, true, true⟩
      else
        let rowcount := db.rows.countP (rowMatches topic parameters)
        let remaining := db.rows.filter (fun r => !rowMatches topic parameters r)
        if rowcount > 0 then
          ⟨⟨some ⟨remaining, db.nextId⟩⟩,
            some "Content deleted successfully.", none, true, true⟩
        else
          ⟨⟨some ⟨remaining, db.nextId⟩⟩,
            some "No content found to delete for the given topic and parameters.",
            none, true, true⟩

/-- `retrieve_all_data()`: `SELECT * FROM analysis_data`, `fetchall()`;
returns the list of all rows in storage order, or `[]` when
`sqlite3.Error` is caught. -/
def retrieve_all_data (failConnect failExec : Bool) (file : DBFile) :
    OpResult (List Row) :=
  if failConnect then
    ⟨file, none, some Exn.unboundLocalError, false, false⟩
  else
    match file.table with
    | none => ⟨file, some [], none, true, true⟩
    | some db =>
      if failExec then
        ⟨file, some [], none, true, true⟩
      else
        ⟨file, some db.rows, none, true, true⟩

/-- `update_sqlite(topic, parameters, new_content)`: `UPDATE analysis_data
SET content = ? WHERE topic = ? AND parameters = ?`, commit;
`cursor.rowcount` is the number of rows matched by the WHERE clause and
selects the returned message. -/
def update_sqlite (failConnect failExec : Bool) (file : DBFile)
    (topic parameters new_content : String) : OpResult String :=
  if failConnect then
    ⟨file, none, some Exn.unboundLocalError, false, false⟩
  else
    match file.table with
    | none =>
      ⟨file, some "An error occurred while updating the content.",
        none, true, true⟩
    | some db =>
      if failExec then
        ⟨file, some "An error occurred while updating the content.",
          none, true, true⟩
      else
        let newRows := db.rows.map (fun r =>
          if rowMatches topic parameters r then
            ⟨r.id, r.topic, r.parameters, new_content⟩
          else r)
        let rowcount := db.rows.countP (rowMatches topic parameters)
        if rowcount > 0 then
          ⟨⟨some ⟨newRows, db.nextId⟩⟩,
            some "Content updated successfully.", none, true, true⟩
        else
          ⟨⟨some ⟨newRows, db.nextId⟩⟩,
            some "No matching content found to update.", none, true, true⟩

/-! ### Helper lemmas shared by the claim theorems -/

/-- The database file produced by a successful `update_sqlite` call is the
same in both the `rowcount > 0` and the `rowcount == 0` branch. -/
theorem update_file_eq (db : DB) (t p nc : String) :
    (update_sqlite false false ⟨some db⟩ t p nc).file =
      ⟨some ⟨db.rows.map (fun r =>
          if rowMatches t p r then ⟨r.id, r.topic, r.parameters, nc⟩ else r),
        db.nextId⟩⟩ := by
  simp only [update_sqlite]
  split
  · simp_all
  · split <;> rfl

/-- The database file produced by a successful `delete_from_sqlite` call is
the same in both the `rowcount > 0` and the `rowcount == 0` branch. -/
theorem delete_file_eq (db : DB) (t p : String) :
    (delete_from_sqlite false false ⟨some db⟩ t p).file =
      ⟨some ⟨db.rows.filter (fun r => !rowMatches t p r), db.nextId⟩⟩ := by
  simp only [delete_from_sqlite]
  split
  · simp_all
  · split <;> rfl

/-- Length of the rows surviving a filter on the negated predicate. -/
theorem length_filter_not (p : Row → Bool) (l : List Row) :
    (l.filter (fun a => !p a)).length = l.length - l.countP p := by
  induction l with
  | nil => rfl
  | cons a l ih =>
    have hle := List.countP_le_length (p := p) (l := l)
    by_cases h : p a = true
    · simp only [List.filter_cons, h, Bool.not_true, List.countP_cons,
        List.length_cons]
      simp [ih]
    · have h' : p a = false := by revert h; cases p a <;> simp
      simp only [List.filter_cons, h', Bool.not_false, List.countP_cons,
        List.length_cons, if_pos]
      simp [ih, h']
      omega

/-! ### Claim theorems -/

/-- C1: for every table state and every topic, parameters, content,
`save` followed by `retrieve` on the same key returns the saved content
when no other row shares the key (`find?` on the old rows is `none`), and
otherwise the current content of the first-inserted matching row (the row
`find?` reports on the old rows). -/
theorem save_then_retrieve_returns_content (db : DB) (t p c : String) :
    (retrieve_from_sqlite false false
        (save_to_sqlite false false ⟨some db⟩ t p c).file t p).ret =
      some (match db.rows.find? (rowMatches t p) with
            | some r => r.content
            | none => c) := by
  have hnew : rowMatches t p ⟨db.nextId, t, p, c⟩ = true := by
    simp [rowMatches]
  show (retrieve_from_sqlite false false
      ⟨some ⟨db.rows ++ [⟨db.nextId, t, p, c⟩], db.nextId + 1⟩⟩ t p).ret = _
  simp only [retrieve_from_sqlite, List.find?_append]
  cases hfind : db.rows.find? (rowMatches t p) with
  | some r => simp
  | none => simp [hnew]

/-- C2: when opening the connection itself fails (`sqlite3.connect`
raises), every operation of the module lets an `UnboundLocalError` escape
to the caller — raised by the `finally` clause evaluating `conn.close()`
on the never-bound local `conn` — instead of returning a benign value. -/
theorem connect_failure_raises_unbound_local (file : DBFile)
    (t p c : String) :
    (init_db true false file).exn = some Exn.unboundLocalError ∧
    (check_table_exists true false file).exn = some Exn.unboundLocalError ∧
    (save_to_sqlite true false file t p c).exn = some Exn.unboundLocalError ∧
    (retrieve_from_sqlite true false file t p).exn = some Exn.unboundLocalError ∧
    (delete_from_sqlite true false file t p).exn = some Exn.unboundLocalError ∧
    (update_sqlite true false file t p c).exn = some Exn.unboundLocalError ∧
    (retrieve_all_data true false file).exn = some Exn.unboundLocalError ∧
    (retrieve_from_sqlite true false file t p).ret = none :=
  ⟨rfl, rfl, rfl, rfl, rfl, rfl, rfl, rfl⟩

/-- C5: on a table none of whose rows matches the key — the empty table
included — `retrieve` returns the not-found sentinel (which is not the
empty string) without raising; and when the read statement itself fails at
the engine level, it returns the distinct error string, again without
raising. -/
theorem retrieve_not_found_and_read_failure (db : DB) (t p : String)
    (h : ∀ r ∈ db.rows, rowMatches t p r = false) :
    (retrieve_from_sqlite false false ⟨some db⟩ t p).ret =
        some "No content found for the given topic and parameters." ∧
    (retrieve_from_sqlite false false ⟨some db⟩ t p).exn = none ∧
    "No content found for the given topic and parameters." ≠ "" ∧
    ∀ (db2 : DB) (t2 p2 : String),
      (retrieve_from_sqlite false true ⟨some db2⟩ t2 p2).ret =
          some "An error occurred while retrieving the content." ∧
      (retrieve_from_sqlite false true ⟨some db2⟩ t2 p2).exn = none := by
  have hfind : db.rows.find? (rowMatches t p) = none := by
    rw [List.find?_eq_none]
    intro x hx
    simp [h x hx]
  refine ⟨?_, ?_, by decide, fun db2 t2 p2 => ⟨rfl, rfl⟩⟩ <;>
    simp [retrieve_from_sqlite, hfind]

/-- Witness for C5 at the empty table and an unknown key. -/
theorem retrieve_not_found_witness :
    (retrieve_from_sqlite false false ⟨some ⟨[], 1⟩⟩ "UNKNOWN" "x").ret =
      some "No content found for the given topic and parameters." :=
  (retrieve_not_found_and_read_failure ⟨[], 1⟩ "UNKNOWN" "x"
    (by intro r hr; cases hr)).1

/-- C6 counterexample: when the connection opens but the schema-creation
statement fails at the engine level (e.g. a corrupted backing file),
`init_db` catches the error, logs it, and returns normally — no fault of
any kind reaches the caller. -/
theorem init_db_exec_failure_swallowed :
    (init_db false true ⟨none⟩).ret = some () ∧
    (init_db false true ⟨none⟩).exn = none ∧
    (init_db false true ⟨none⟩).file = ⟨none⟩ :=
  ⟨rfl, rfl, rfl⟩

/-- C6 amended: when `sqlite3.connect` itself fails, `init_db` does let a
fault escape to the caller, but it is the `UnboundLocalError` raised by
the `finally` clause, not a storage-typed error; when the connection opens
and the schema statement fails, the error is caught and logged and
`init_db` returns normally, leaving the file unchanged. -/
theorem init_db_failure_behaviour :
    (∀ file : DBFile,
        (init_db true false file).exn = some Exn.unboundLocalError ∧
        (init_db true false file).ret = none) ∧
    (∀ file : DBFile,
        (init_db false true file).exn = none ∧
        (init_db false true file).ret = some () ∧
        (init_db false true file).file = file) :=
  ⟨fun _ => ⟨rfl, rfl⟩, fun _ => ⟨rfl, rfl, rfl⟩⟩

/-- C10: the not-found sentinel is the ordinary string
`"No content found for the given topic and parameters."`; a store holding
a matching row whose content equals that string makes `retrieve` return
exactly the same value as on a store with no matching row, so the caller
cannot tell presence from absence; the engine-failure value is likewise an
ordinary string. -/
theorem retrieve_sentinel_indistinguishable :
    (DB.rows ⟨[⟨1, "AAPL", "x",
        "No content found for the given topic and parameters."⟩], 2⟩).countP
      (rowMatches "AAPL" "x") = 1 ∧
    (retrieve_from_sqlite false false
        ⟨some ⟨[⟨1, "AAPL", "x",
          "No content found for the given topic and parameters."⟩], 2⟩⟩
        "AAPL" "x").ret =
      (retrieve_from_sqlite false false ⟨some ⟨[], 1⟩⟩ "AAPL" "x").ret ∧
    (retrieve_from_sqlite false true ⟨some ⟨[], 1⟩⟩ "AAPL" "x").ret =
      some "An error occurred while retrieving the content." := by
  refine ⟨by decide, ?_, rfl⟩
  rfl

/-- C3: `update` on a key matching no row returns the not-found message
and leaves the table unchanged; on a key matching at least one row it
returns the success message and rewrites `content` to the new value on
every matching row while keeping every non-matching row intact. -/
theorem update_semantics (db : DB) (t p nc : String) :
    ((∀ r ∈ db.rows, rowMatches t p r = false) →
        (update_sqlite false false ⟨some db⟩ t p nc).ret =
            some "No matching content found to update." ∧
        (update_sqlite false false ⟨some db⟩ t p nc).file = ⟨some db⟩) ∧
    ((∃ r ∈ db.rows, rowMatches t p r = true) →
        (update_sqlite false false ⟨some db⟩ t p nc).ret =
            some "Content updated successfully." ∧
        ∃ db2, (update_sqlite false false ⟨some db⟩ t p nc).file.table =
            some db2 ∧
          List.Forall₂ (fun old new =>
              (rowMatches t p old = true →
                new = ⟨old.id, old.topic, old.parameters, nc⟩) ∧
              (rowMatches t p old = false → new = old)) db.rows db2.rows) := by
  constructor
  · intro h
    have hcnt : db.rows.countP (rowMatches t p) = 0 := by
      rw [List.countP_eq_zero]
      intro a ha
      simp [h a ha]
    have hmap : db.rows.map (fun r =>
        if rowMatches t p r then ⟨r.id, r.topic, r.parameters, nc⟩ else r) =
        db.rows := by
      have := List.map_congr_left (l := db.rows)
        (g := fun r => r)
        (f := fun r =>
          if rowMatches t p r then
            (⟨r.id, r.topic, r.parameters, nc⟩ : Row)
          else r)
        (by intro a ha; simp [h a ha])
      simpa using this
    constructor
    · simp only [update_sqlite]
      rw [if_neg (by decide : ¬(false = true)),
      if_neg (by decide : ¬(false = true)),
        if_neg (by omega : ¬(List.countP (rowMatches t p) db.rows > 0))]
    · rw [update_file_eq, hmap]
  · intro h
    have hcnt : 0 < db.rows.countP (rowMatches t p) :=
      List.countP_pos_iff.mpr h
    constructor
    · simp only [update_sqlite]
      rw [if_neg (by decide : ¬(false = true)),
      if_neg (by decide : ¬(false = true)),
        if_pos (by omega : List.countP (rowMatches t p) db.rows > 0)]
    · refine ⟨_, by rw [update_file_eq], ?_⟩
      rw [List.forall₂_map_right_iff]
      rw [List.forall₂_same]
      intro r _
      by_cases hr : rowMatches t p r = true
      · simp [hr]
      · have hr' : rowMatches t p r = false := by
          revert hr; cases rowMatches t p r <;> simp
        simp [hr']

/-- Witness for C3 on a one-row table whose row matches the key. -/
theorem update_semantics_witness :
    (update_sqlite false false ⟨some ⟨[⟨1, "t", "p", "a"⟩], 2⟩⟩
        "t" "p" "B").ret = some "Content updated successfully." :=
  ((update_semantics ⟨[⟨1, "t", "p", "a"⟩], 2⟩ "t" "p" "B").2
    ⟨⟨1, "t", "p", "a"⟩, by simp, by decide⟩).1

/-- C4: `delete` removes every matching row and keeps every non-matching
row; it returns the success message exactly when at least one row matched;
and an immediately repeated `delete` on the same key returns the not-found
message. -/
theorem delete_semantics (db : DB) (t p : String) :
    (∃ db2, (delete_from_sqlite false false ⟨some db⟩ t p).file.table =
        some db2 ∧
      (∀ r ∈ db2.rows, rowMatches t p r = false) ∧
      (∀ r ∈ db.rows, rowMatches t p r = false → r ∈ db2.rows)) ∧
    ((∃ r ∈ db.rows, rowMatches t p r = true) →
        (delete_from_sqlite false false ⟨some db⟩ t p).ret =
          some "Content deleted successfully.") ∧
    (delete_from_sqlite false false
        (delete_from_sqlite false false ⟨some db⟩ t p).file t p).ret =
      some "No content found to delete for the given topic and parameters." := by
  have hall : ∀ r ∈ db.rows.filter (fun r => !rowMatches t p r),
      rowMatches t p r = false := by
    intro r hr
    have := (List.mem_filter.mp hr).2
    revert this; cases rowMatches t p r <;> simp
  refine ⟨⟨_, by rw [delete_file_eq], hall, ?_⟩, ?_, ?_⟩
  · intro r hr hfalse
    exact List.mem_filter.mpr ⟨hr, by simp [hfalse]⟩
  · intro h
    have hcnt : 0 < db.rows.countP (rowMatches t p) :=
      List.countP_pos_iff.mpr h
    simp only [delete_from_sqlite]
    rw [if_neg (by decide : ¬(false = true)),
      if_neg (by decide : ¬(false = true)),
      if_pos (by omega : List.countP (rowMatches t p) db.rows > 0)]
  · rw [delete_file_eq]
    have hcnt : (db.rows.filter (fun r => !rowMatches t p r)).countP
        (rowMatches t p) = 0 := by
      rw [List.countP_eq_zero]
      intro a ha
      simp [hall a ha]
    simp only [delete_from_sqlite]
    rw [if_neg (by decide : ¬(false = true)),
      if_neg (by decide : ¬(false = true)),
      if_neg (by omega : ¬(List.countP (rowMatches t p)
        (List.filter (fun r => !rowMatches t p r) db.rows) > 0))]

/-- Witness for C4 on a one-row table whose row matches the key. -/
theorem delete_semantics_witness :
    (delete_from_sqlite false false ⟨some ⟨[⟨1, "t", "p", "a"⟩], 2⟩⟩
        "t" "p").ret = some "Content deleted successfully." :=
  (delete_semantics ⟨[⟨1, "t", "p", "a"⟩], 2⟩ "t" "p").2.1
    ⟨⟨1, "t", "p", "a"⟩, by simp, by decide⟩

/-- C7: `init_db` is idempotent — iterating it `n ≥ 1` times (no engine
failure) produces the file whose table is the existing table if there was
one, and the fresh empty table otherwise; existing rows are never touched
and the table is never dropped. -/
theorem init_db_idempotent (file : DBFile) (n : Nat) (h : 1 ≤ n) :
    (fun f => (init_db false false f).file)^[n] file =
      ⟨some (file.table.getD ⟨[], 1⟩)⟩ := by
  obtain ⟨m, rfl⟩ : ∃ m, n = m + 1 := ⟨n - 1, by omega⟩
  clear h
  induction m with
  | zero => rfl
  | succ k ih =>
    rw [Function.iterate_succ_apply', ih]
    rfl

/-- Witness for C7: two initializations of a file holding one row keep
the row. -/
theorem init_db_idempotent_witness :
    1 ≤ 2 ∧
    (fun f => (init_db false false f).file)^[2]
        ⟨some ⟨[⟨1, "a", "b", "c"⟩], 2⟩⟩ =
      ⟨some ⟨[⟨1, "a", "b", "c"⟩], 2⟩⟩ :=
  ⟨by decide, init_db_idempotent ⟨some ⟨[⟨1, "a", "b", "c"⟩], 2⟩⟩ 2 (by decide)⟩

/-- C9: an `update` call never changes the `id`, `topic` or `parameters`
field of any row — the projection of the table to those three fields is
the same before and after the call, row for row. -/
theorem update_preserves_id_topic_parameters (db : DB) (t p nc : String) :
    (((update_sqlite false false ⟨some db⟩ t p nc).file.table.getD
        ⟨[], 0⟩).rows).map (fun r => (r.id, r.topic, r.parameters)) =
      db.rows.map (fun r => (r.id, r.topic, r.parameters)) := by
  rw [update_file_eq]
  show (db.rows.map _).map _ = _
  rw [List.map_map]
  apply List.map_congr_left
  intro r _
  by_cases hr : rowMatches t p r = true
  · simp [Function.comp, hr]
  · have hr' : rowMatches t p r = false := by
      revert hr; cases rowMatches t p r <;> simp
    simp [Function.comp, hr']

/-- The scenario of spec section 8 for `list_all`: a sequence of
`save_to_sqlite` calls (no engine failure), one per
(topic, parameters, content) triple. -/
def saveAll (l : List (String × String × String)) (file : DBFile) : DBFile :=
  l.foldl (fun f x => (save_to_sqlite false false f x.1 x.2.1 x.2.2).file) file

/-- The rows such a sequence of saves appends, with ids assigned from `k`
on by the AUTOINCREMENT counter. -/
def freshRows : List (String × String × String) → Nat → List Row
  | [], _ => []
  | x :: xs, k => ⟨k, x.1, x.2.1, x.2.2⟩ :: freshRows xs (k + 1)

/-- Effect of a sequence of saves on a table. -/
theorem saveAll_eq (l : List (String × String × String)) (rows : List Row)
    (k : Nat) :
    saveAll l ⟨some ⟨rows, k⟩⟩ =
      ⟨some ⟨rows ++ freshRows l k, k + l.length⟩⟩ := by
  induction l generalizing rows k with
  | nil => simp [saveAll, freshRows]
  | cons x xs ih =>
    show saveAll xs ⟨some ⟨rows ++ [⟨k, x.1, x.2.1, x.2.2⟩], k + 1⟩⟩ = _
    rw [ih]
    have harith : k + 1 + xs.length = k + (xs.length + 1) := by omega
    simp [freshRows, harith]

/-- The appended rows carry exactly the saved fields, in order. -/
theorem freshRows_fields (l : List (String × String × String)) (k : Nat) :
    (freshRows l k).map (fun r => (r.topic, r.parameters, r.content)) = l := by
  induction l generalizing k with
  | nil => rfl
  | cons x xs ih => simp [freshRows, ih]

/-- The appended rows receive consecutive, hence pairwise distinct, ids. -/
theorem freshRows_ids (l : List (String × String × String)) (k : Nat) :
    (freshRows l k).map Row.id = List.range' k l.length := by
  induction l generalizing k with
  | nil => rfl
  | cons x xs ih => simp [freshRows, List.range'_succ, ih]

/-- C8 counterexample: a table holding two records that share the key
`("t", "p")` lists 2 records; after one `delete` call on that key it lists
0 records — the count dropped by 2, not by exactly one. -/
theorem list_all_delete_counterexample :
    ((retrieve_all_data false false
        ⟨some ⟨[⟨1, "t", "p", "a"⟩, ⟨2, "t", "p", "b"⟩], 3⟩⟩).ret.getD
        []).length = 2 ∧
    ((retrieve_all_data false false
        (delete_from_sqlite false false
          ⟨some ⟨[⟨1, "t", "p", "a"⟩, ⟨2, "t", "p", "b"⟩], 3⟩⟩
          "t" "p").file).ret.getD []).length = 0 := by
  refine ⟨rfl, ?_⟩
  rw [delete_file_eq]
  rfl

/-- C8 amended: saving records R1..Rn appends exactly those n records
after the existing rows, in insertion order and with fresh pairwise
distinct ids, and `list_all` then returns them all in storage order; a
`delete` call reduces the listed count by exactly the number of rows
matching the deleted key (hence by one exactly when a single row
matches); and `list_all` returns the empty sequence, without raising, on
an empty store and on engine-level read failure. -/
theorem list_all_semantics (l : List (String × String × String))
    (rows : List Row) (k : Nat) (db : DB) (t p : String) :
    (retrieve_all_data false false (saveAll l ⟨some ⟨rows, k⟩⟩)).ret =
        some (rows ++ freshRows l k) ∧
    (freshRows l k).map (fun r => (r.topic, r.parameters, r.content)) = l ∧
    (freshRows l k).map Row.id = List.range' k l.length ∧
    ((retrieve_all_data false false
        (delete_from_sqlite false false ⟨some db⟩ t p).file).ret.getD
        []).length =
      ((retrieve_all_data false false ⟨some db⟩).ret.getD []).length -
        db.rows.countP (rowMatches t p) ∧
    (retrieve_all_data false false ⟨some ⟨[], k⟩⟩).ret = some [] ∧
    (∀ file : DBFile, (retrieve_all_data false true file).ret = some [] ∧
      (retrieve_all_data false true file).exn = none) := by
  refine ⟨?_, freshRows_fields l k, freshRows_ids l k, ?_, rfl, ?_⟩
  · rw [saveAll_eq]
    rfl
  · rw [delete_file_eq]
    show (db.rows.filter (fun r => !rowMatches t p r)).length =
      db.rows.length - db.rows.countP (rowMatches t p)
    exact length_filter_not (rowMatches t p) db.rows
  · intro file
    cases file with
    | mk table =>
      cases table with
      | none => exact ⟨rfl, rfl⟩
      | some db2 => exact ⟨rfl, rfl⟩
